import Mathlib

/-!
Verification development for the CodeReviewAI repository.

The development shallowly embeds the two core components of the service:

* `GitHubRepositoryFetcher` (src/repo_fetcher.py): the FIFO directory walk
  `_process_files`, the size-threshold content resolution `_get_file_content`
  and the large-file spill `_save_large_file`;
* `CodeAnalyzer` (src/analyzer.py): the section extractor `extract_section`
  (a faithful model of the Python regex it compiles), the response parser
  `parse_result`, the request handler `_send_request` and the retry loop
  `start`;
* the request handler `review_code` (src/main.py) sequencing the two.

Python strings are Lean `String`s; byte payloads that the code decodes as
UTF-8 are represented by the decoded string itself (decoding a valid UTF-8
byte string is the identity on this representation).  Remote interactions are
modelled by response scripts: a list of the responses the collaborator would
return to successive calls.
-/

namespace CodeReviewAI

/-!
Model of the compiled Python regular expression used by
`CodeAnalyzer.extract_section` (src/analyzer.py):

  (?:###?\s*|\*\*|-\s*)NAME[:*]?\s*(.*?)(?=\n(?:###?|\*\*|-\s*)|\Z)

with `re.DOTALL`.  The embedding replays Python's backtracking semantics
specialised to this pattern.  Because the lazy group `(.*?)` followed by the
lookahead always succeeds (the `\Z` alternative holds at end of input), the
engine never backtracks into the mandatory part of the pattern; and because
the section names used by the program start with a letter, the greedy `###?`,
`\s*` and `[:*]?` pieces never need to give characters back (a shorter match
of any of them would leave `#`, whitespace, `:` or `*` in front of the
literal name, which cannot match).  Hence maximal-munch without backtracking
is exact for this pattern, and the captured group is the shortest span whose
end position satisfies the lookahead.
-/

/-- Python's `\s` character class (ASCII portion): space, tab, newline,
carriage return, vertical tab, form feed. -/
def isPySpace (c : Char) : Bool :=
  c = ' ' || c = '\t' || c = '\n' || c = '\r' || c.toNat = 11 || c.toNat = 12

/-- Maximal munch of `\s*`. -/
def dropSpaces (s : List Char) : List Char :=
  s.dropWhile isPySpace

/-- Matches the heading-marker alternation `(?:###?\s*|\*\*|-\s*)` at the
head of the input and returns the rest.  The three alternatives start with
distinct characters, so the alternation order is immaterial here. -/
def matchMarker : List Char → Option (List Char)
  | '#' :: '#' :: rest =>
      match rest with
      | '#' :: rest2 => some (dropSpaces rest2)
      | _ => some (dropSpaces rest)
  | '*' :: '*' :: rest => some rest
  | '-' :: rest => some (dropSpaces rest)
  | _ => none

/-- Matches a literal character sequence at the head of the input. -/
def matchLiteral : List Char → List Char → Option (List Char)
  | [], s => some s
  | _ :: _, [] => none
  | c :: cs, x :: xs => if c = x then matchLiteral cs xs else none

/-- Greedy `[:*]?`: consume one `:` or `*` when present. -/
def consumePunct : List Char → List Char
  | c :: rest => if c = ':' || c = '*' then rest else c :: rest
  | [] => []

/-- The lookahead `(?=\n(?:###?|\*\*|-\s*)|\Z)`: holds at end of input, or
when the input continues with a newline followed by `##`, `**` or `-`
(inside the lookahead, `###?` needs two `#` and `-\s*` needs only the `-`,
since `\s*` may be empty). -/
def lookaheadOk : List Char → Bool
  | [] => true
  | '\n' :: rest =>
      match rest with
      | '#' :: '#' :: _ => true
      | '*' :: '*' :: _ => true
      | '-' :: _ => true
      | _ => false
  | _ => false

/-- The lazy group `(.*?)` (DOTALL) before the lookahead: the shortest prefix
whose end position satisfies `lookaheadOk`.  It always exists because the
lookahead holds at end of input. -/
def takeGroup : List Char → List Char
  | [] => []
  | c :: rest => if lookaheadOk (c :: rest) then [] else c :: takeGroup rest

/-- Attempts the whole pattern anchored at the current position; on success
returns the captured group. -/
def matchSectionAt (name : List Char) (s : List Char) : Option (List Char) :=
  match matchMarker s with
  | none => none
  | some r1 =>
      match matchLiteral name r1 with
      | none => none
      | some r2 => some (takeGroup (dropSpaces (consumePunct r2)))

/-- Python `re.search`: try the pattern at every position, left to right, and
return the first capture. -/
def searchSection (name : List Char) : List Char → Option (List Char)
  | [] => matchSectionAt name []
  | c :: rest =>
      match matchSectionAt name (c :: rest) with
      | some g => some g
      | none => searchSection name rest

/-- Python `str.strip()`: remove leading and trailing whitespace. -/
def pyStrip (s : List Char) : List Char :=
  ((s.dropWhile isPySpace).reverse.dropWhile isPySpace).reverse

/-- Sentinel pieces of `extract_section`'s no-match return value
`f"No {section_name.lower()} available"`. -/
def sentinelHead : String := "No "

/-- Tail of the no-match sentinel. -/
def sentinelTail : String := " available"

/-- ASCII lower-casing of one character, as Python `str.lower()` acts on the
ASCII section names used by the program. -/
def pyLowerChar (c : Char) : Char :=
  if 'A' ≤ c ∧ c ≤ 'Z' then Char.ofNat (c.toNat + 32) else c

/-- Python `str.lower()` on ASCII strings. -/
def pyLower (s : String) : String :=
  String.mk (s.toList.map pyLowerChar)

/-- Embedding of `CodeAnalyzer.extract_section` (src/analyzer.py): search the
text for the section pattern; on a match return the captured group stripped
of surrounding whitespace, otherwise the sentinel naming the section in lower
case. -/
def extract_section (text : String) (section_name : String) : String :=
  match searchSection section_name.toList text.toList with
  | some g => String.mk (pyStrip g)
  | none => sentinelHead ++ pyLower section_name ++ sentinelTail

/-- The section name string passed for the rating field. -/
def ratingName : String := "Rating"

/-- The section name string passed for the conclusion field. -/
def conclusionName : String := "Conclusion"

/-- Generated text of the specification's end-to-end scenario: a mocked 200
response whose generated text contains a bold rating and conclusion. -/
def scenarioText : String := "**Rating:** 8/10\n**Conclusion:** Good"

/-- Name and path of the single file of the specification's end-to-end
scenario. -/
def testPyName : String := "test.py"

/-- Decoded content of that file (50 bytes upstream in the scenario; the
literal here is its text). -/
def helloBytes : String := "print('Hello')"

/-- A generated text whose rating heading is the end of the text, so the
captured group is empty. -/
def emptyHeadingText : String := "**Rating:"


/-!
Embedding of `CodeAnalyzer.parse_result`, `_send_request` and `start`
(src/analyzer.py).

A 200 response body is modelled at the granularity the code inspects it:
either the text is not valid JSON (`json.loads` raises `JSONDecodeError`),
or it decodes to a JSON value classified by the shape `parse_result` probes:
a non-object value (`result.get` raises `AttributeError`), or an object
whose `openai` entry is absent (`result.get('openai', {})` falls back to an
empty dict), present but not an object (`.get` raises `AttributeError`), or
an object without `generated_text`, with a string `generated_text`, or with
a non-string `generated_text` (on which `re.search` raises `TypeError`).
The raising shapes carry the `str()` of the exception CPython raises for
them.  Remote behaviour is a script: the list of responses successive calls
would receive.

A decisive control-flow fact: the `raise HTTPException(429, ...)` and
`raise HTTPException(response.status_code, ...)` statements sit inside the
same `try:` suite as the trailing `except Exception` handler.
`fastapi.HTTPException` subclasses `Exception` and is neither a
`requests.RequestException` nor a `json.JSONDecodeError`, so both raises are
intercepted by that handler and re-raised as `HTTPException(500,
f"Error analyzing code: {str(e)}")`.  No exception with status 429 ever
escapes `_send_request`, which makes the retry branch of `start` dead code.
-/

/-- Default used by `openai_data.get('generated_text', ...)` when the
provider data carries no generated text. -/
def noSuggestion : String := "No suggestion available"

/-- Result record built by `parse_result`: found files, the raw generated
text, and the two extracted sections. -/
structure ParsedReview where
  found_files : List String
  downsides_comments : String
  rating : String
  conclusion : String
deriving DecidableEq, Repr

/-- The generated text `parse_result` works on:
`result.get('openai', {}).get('generated_text', 'No suggestion available')`. -/
def generatedTextOf : Option (Option String) → String
  | some (some t) => t
  | some none => noSuggestion
  | none => noSuggestion

/-- Embedding of `CodeAnalyzer.parse_result` (src/analyzer.py) on the
well-shaped provider inputs, on which the function returns normally: read
the generated text (with the no-suggestion default), extract the Rating and
Conclusion sections, and assemble the report.  `parse_result_outcome` below
extends this embedding to the JSON shapes on which the source function
raises. -/
def parse_result (openaiData : Option (Option String)) (file_names : List String) :
    ParsedReview :=
  let generated_text := generatedTextOf openaiData
  { found_files := file_names
    downsides_comments := generated_text
    rating := extract_section generated_text ratingName
    conclusion := extract_section generated_text conclusionName }

/-- The `openai` entry of a decoded JSON object body, at the granularity
`parse_result` probes it.  `nonObject` covers a present value with no `.get`
method (string, array, number, boolean or null), on which
`openai_data.get('generated_text', ...)` raises `AttributeError`;
`objNonStringText` covers an object whose `generated_text` is present but
not a string, on which `extract_section`'s `pattern.search` raises
`TypeError`.  Both carry the `str()` of the exception raised. -/
inductive OpenAIField where
  | absent
  | nonObject (excMsg : String)
  | objNoText
  | objWithText (t : String)
  | objNonStringText (excMsg : String)

/-- A decoded JSON value of a 200 body: a non-object value, on which
`result.get('openai', {})` raises `AttributeError` (carrying its `str()`),
or an object described by its `openai` entry. -/
inductive JsonBody where
  | nonObject (excMsg : String)
  | obj (openai : OpenAIField)

/-- What calling the source `parse_result` on a decoded JSON body does:
return the assembled report, or raise (`AttributeError` from a `.get` on a
non-object, `TypeError` from `re.search` on a non-string generated text) —
the error carries the `str()` of the raised exception. -/
def parse_result_outcome (body : JsonBody) (file_names : List String) :
    Except String ParsedReview :=
  match body with
  | JsonBody.nonObject m => Except.error m
  | JsonBody.obj OpenAIField.absent => Except.ok (parse_result none file_names)
  | JsonBody.obj (OpenAIField.nonObject m) => Except.error m
  | JsonBody.obj OpenAIField.objNoText => Except.ok (parse_result (some none) file_names)
  | JsonBody.obj (OpenAIField.objWithText t) =>
      Except.ok (parse_result (some (some t)) file_names)
  | JsonBody.obj (OpenAIField.objNonStringText m) => Except.error m

/-- Body of a 200 response: undecodable text (`json.loads` raises
`JSONDecodeError`), or a decoded JSON value. -/
inductive RespBody where
  | invalid (msg : String)
  | json (body : JsonBody)

/-- One remote response (or failure) as observed by `_send_request`:
a 200 with a body, a 429, another HTTP status with a body text, or a
connectivity-level failure raised by the HTTP client. -/
inductive Resp where
  | ok (body : RespBody)
  | rate
  | errStatus (code : Nat) (text : String)
  | transportFail (msg : String)

/-- A raised `HTTPException`: status code and detail message. -/
structure HErr where
  status : Nat
  detail : String
deriving DecidableEq, Repr

/-- Detail of the 429 exception raised by `_send_request`. -/
def rateMsg : String := "AI service rate limit exceeded."

/-- Detail opening of the `JSONDecodeError` handler. -/
def invalidFormatMsg : String := "Invalid response format from AI service: "

/-- Detail opening of the generic exception handler. -/
def analyzeErrMsg : String := "Error analyzing code: "

/-- The `str()` CPython gives the `AttributeError` raised by
`"hello".get('generated_text', ...)` when the openai value is a string. -/
def strAttrErrMsg : String := "'str' object has no attribute 'get'"

/-- Starlette's `HTTPException.__str__` (inherited by FastAPI's class):
the status code, a colon and a space, and the detail.  This is the `str(e)`
the generic handler interpolates when it catches an `HTTPException` raised
inside the `try` suite. -/
def strHTTPException (e : HErr) : String :=
  toString e.status ++ ": " ++ e.detail

/-- Embedding of `CodeAnalyzer._send_request` (src/analyzer.py).  Returns the
outcome together with the list of sleep durations it performs, in order.

* 200 with decodable JSON: call `parse_result`.  If it returns, return its
  report; if it raises (non-object shapes), the exception reaches the
  generic `except Exception` handler, which re-raises
  `HTTPException(500, "Error analyzing code: " + str(e))`; no sleep.
* 200 with undecodable text: `json.loads` raises `JSONDecodeError`, caught
  by its dedicated handler and re-raised as
  `HTTPException(500, "Invalid response format ...")`; no sleep.
* 429: `time.sleep(backoff_factor ** 2)` (a fixed 4 time units), then
  `raise HTTPException(429, ...)` — but this raise is inside the `try`
  suite, so the generic `except Exception` handler catches it and re-raises
  `HTTPException(500, "Error analyzing code: " + str(e))`, with `str(e)`
  being `429: AI service rate limit exceeded.`.  No 429 escapes.
* other status: `raise HTTPException(status, body_text)`, likewise caught by
  the generic handler and re-raised as a 500 wrapping its `str()`; no sleep.
* connectivity failure: the client is `httpx`, whose request errors are not
  subclasses of `requests.RequestException`, so the
  `except requests.RequestException` branch (which would sleep 4 and raise a
  502) is unreachable; the failure falls through to the generic handler,
  which raises `HTTPException(500, "Error analyzing code: ...")` with no
  sleep. -/
def send_request (file_names : List String) : Resp → Except HErr ParsedReview × List Nat
  | Resp.ok (RespBody.json b) =>
      match parse_result_outcome b file_names with
      | Except.ok p => (Except.ok p, [])
      | Except.error m => (Except.error ⟨500, analyzeErrMsg ++ m⟩, [])
  | Resp.ok (RespBody.invalid m) => (Except.error ⟨500, invalidFormatMsg ++ m⟩, [])
  | Resp.rate =>
      (Except.error ⟨500, analyzeErrMsg ++ strHTTPException ⟨429, rateMsg⟩⟩, [4])
  | Resp.errStatus c t =>
      (Except.error ⟨500, analyzeErrMsg ++ strHTTPException ⟨c, t⟩⟩, [])
  | Resp.transportFail m => (Except.error ⟨500, analyzeErrMsg ++ m⟩, [])

/-- `CodeAnalyzer.retries`. -/
def retries : Nat := 3

/-- `CodeAnalyzer.backoff_factor`. -/
def backoff_factor : Nat := 2

/-- Outcome of a run of `CodeAnalyzer.start`: the result or raised
exception, all sleep durations in order, and the number of remote calls
performed. -/
structure RunOut where
  outcome : Except HErr ParsedReview
  sleeps : List Nat
  calls : Nat
deriving Repr

/-- One iteration structure of the `for attempt in range(self.retries)` loop
of `CodeAnalyzer.start`: issue the request; on success break with the
result (`parse_result` always returns a truthy non-empty dict, so
`if result: break` always breaks); on a raised 429 with
`attempt < retries - 1`, sleep `backoff_factor ** attempt` and continue with
the next attempt; on any other raised exception (or a 429 on the last
attempt) re-raise.  Since `_send_request` wraps every raised exception into
a status-500 `HTTPException` (see `send_request`), the 429 test never fires
and the retry branch is dead code: every run makes exactly one remote call.
The response script is consumed one entry per call; an exhausted script
(never reached in the runs stated below) is reported as a distinguished
status 0 marker. -/
def startLoop (file_names : List String) (attempt : Nat) : List Resp → RunOut
  | [] => ⟨Except.error ⟨0, "script exhausted"⟩, [], 0⟩
  | r :: rest =>
      match send_request file_names r with
      | (Except.ok p, s) => ⟨Except.ok p, s, 1⟩
      | (Except.error e, s) =>
          if e.status = 429 ∧ attempt < retries - 1 then
            let next := startLoop file_names (attempt + 1) rest
            ⟨next.outcome, s ++ backoff_factor ^ attempt :: next.sleeps, 1 + next.calls⟩
          else
            ⟨Except.error e, s, 1⟩

/-- Embedding of `CodeAnalyzer.start` (src/analyzer.py): run the retry loop
from attempt 0 against the given response script. -/
def start (file_names : List String) (script : List Resp) : RunOut :=
  startLoop file_names 0 script


/-!
Embedding of `GitHubRepositoryFetcher` (src/repo_fetcher.py).

A repository tree is the listing structure the upstream API reports: each
entry is a file (with its repository-relative path, byte size and
byte content, kept here in decoded form) or a directory whose
`repo.get_contents(path)` listing is its child list.  `_process_files` runs
a FIFO queue seeded with the root listing, expanding a popped directory by
appending its children to the back and turning a popped file into a
`FileInfo` record.
-/

/-- One entry of an upstream listing: a leaf file (name, repository-relative
path, byte content in decoded form, byte size) or a directory with the
listing `repo.get_contents` would return for its path. -/
inductive Entry where
  | file (name path decoded_content : String) (size : Nat)
  | dir (name path : String) (children : List Entry)

mutual

/-- Size of one entry: number of tree nodes, used as the termination measure
of the queue traversals. -/
def entSize : Entry → Nat
  | Entry.file _ _ _ _ => 1
  | Entry.dir _ _ ch => 1 + entsSize ch

/-- Total size of a listing. -/
def entsSize : List Entry → Nat
  | [] => 0
  | e :: es => entSize e + entsSize es

end

theorem entsSize_append (a b : List Entry) :
    entsSize (a ++ b) = entsSize a + entsSize b := by
  induction a with
  | nil => simp [entsSize]
  | cons e es ih => simp [entsSize, ih]; omega

/-- `MAX_CONTENT_SIZE` (src/repo_fetcher.py): 1 MiB. -/
def MAX_CONTENT_SIZE : Nat := 1024 * 1024

/-- The scratch root prefix produced by `os.path.join("/tmp", path)` for the
relative paths the upstream reports. -/
def tmpTop : String := "/tmp/"

/-- `os.path.join("/tmp", p)`: `p` itself when `p` is absolute, otherwise
`/tmp/` followed by `p`. -/
def joinTmpPath (p : String) : String :=
  match p.toList with
  | c :: _ => if c = '/' then p else tmpTop ++ p
  | [] => tmpTop

/-- Opening of the spill-reference string returned by `_save_large_file`. -/
def savedMsg : String := "File content saved to "

/-- A write performed by `_save_large_file`: target path and the bytes
written. -/
structure SpillWrite where
  path : String
  bytes : String
deriving DecidableEq, Repr

/-- Embedding of `GitHubRepositoryFetcher._get_file_content` together with
`_save_large_file` (src/repo_fetcher.py): when the byte size strictly
exceeds `MAX_CONTENT_SIZE`, write the raw bytes to `os.path.join("/tmp",
path)` and return the reference string naming that location; otherwise
return the bytes decoded as UTF-8 (the identity on the decoded
representation).  The second component records the disk writes performed. -/
def get_file_content (size : Nat) (path decoded_content : String) :
    String × List SpillWrite :=
  if size > MAX_CONTENT_SIZE then
    (savedMsg ++ joinTmpPath path, [⟨joinTmpPath path, decoded_content⟩])
  else
    (decoded_content, [])

/-- The `FileInfo` named tuple (src/repo_fetcher.py). -/
structure FileInfo where
  name : String
  path : String
  content : String
deriving DecidableEq, Repr

/-- Embedding of `GitHubRepositoryFetcher._process_files`
(src/repo_fetcher.py): pop the first queue entry; a directory's children are
appended to the back of the queue; a file is resolved through
`_get_file_content` and appended to the result. -/
def process_files : List Entry → List FileInfo
  | [] => []
  | Entry.dir _ _ ch :: rest => process_files (rest ++ ch)
  | Entry.file n p b sz :: rest =>
      ⟨n, p, (get_file_content sz p b).1⟩ :: process_files rest
termination_by q => entsSize q
decreasing_by all_goals (simp [entsSize_append, entsSize, entSize]; try omega)

/-- Discovery (pop) order of all entries of the FIFO traversal: each queue
entry in the order it is popped, directories included. -/
def fifoOrder : List Entry → List Entry
  | [] => []
  | Entry.dir n p ch :: rest => Entry.dir n p ch :: fifoOrder (rest ++ ch)
  | Entry.file n p b sz :: rest => Entry.file n p b sz :: fifoOrder rest
termination_by q => entsSize q
decreasing_by all_goals (simp [entsSize_append, entsSize, entSize]; try omega)

/-- The record a popped entry contributes: a `FileInfo` for a file, nothing
for a directory. -/
def recordOf : Entry → Option FileInfo
  | Entry.file n p b sz => some ⟨n, p, (get_file_content sz p b).1⟩
  | Entry.dir _ _ _ => none

mutual

/-- All leaf records reachable from one entry, by structural descent. -/
def leavesOf : Entry → List FileInfo
  | Entry.file n p b sz => [⟨n, p, (get_file_content sz p b).1⟩]
  | Entry.dir _ _ ch => leavesOfList ch

/-- All leaf records reachable from a listing, by structural descent. -/
def leavesOfList : List Entry → List FileInfo
  | [] => []
  | e :: es => leavesOf e ++ leavesOfList es

end

/-!
Embedding of `GitHubRepositoryFetcher._get_repository`,
`fetch_repo_contents` and the `review_code` handler (src/main.py).
-/

/-- What resolving the repository handle can observe upstream: the
repository with its root listing, a rate-limit rejection, a 404, or another
upstream failure. -/
inductive RepoLookup where
  | found (root : List Entry)
  | rateLimited
  | notFound (msg : String)
  | otherErr (msg : String)

/-- Detail of the fetcher's 429 exception. -/
def ghRateMsg : String := "GitHub API rate limit exceeded."

/-- Detail opening of the fetcher's 404 exception. -/
def notFoundMsg : String := "Repository not found: "

/-- Detail opening of the fetcher's other-upstream-failure exception. -/
def fetchErrMsg : String := "Error fetching repository: "

/-- Embedding of `GitHubRepositoryFetcher._get_repository`
(src/repo_fetcher.py): map upstream failures to raised `HTTPException`s
(429, 404 or 500) and return the repository's root listing on success. -/
def get_repository : RepoLookup → Except HErr (List Entry)
  | RepoLookup.found root => Except.ok root
  | RepoLookup.rateLimited => Except.error ⟨429, ghRateMsg⟩
  | RepoLookup.notFound m => Except.error ⟨404, notFoundMsg ++ m⟩
  | RepoLookup.otherErr m => Except.error ⟨500, fetchErrMsg ++ m⟩

/-- Embedding of `GitHubRepositoryFetcher.fetch_repo_contents`
(src/repo_fetcher.py): resolve the repository, take its root listing
(`_get_repo_files`), and run the FIFO traversal. -/
def fetch_repo_contents (lookup : RepoLookup) : Except HErr (List FileInfo) :=
  match get_repository lookup with
  | Except.error e => Except.error e
  | Except.ok root => Except.ok (process_files root)

/-- Embedding of the `review_code` handler (src/main.py) to the granularity
the claims need: fetch the repository contents; a raised `HTTPException`
propagates and the analyzer is never constructed; otherwise build the
analyzer over the fetched file names and run its retry loop against the
response script.  The second component counts remote review calls
performed. -/
def review_code (lookup : RepoLookup) (script : List Resp) :
    Except HErr ParsedReview × Nat :=
  match fetch_repo_contents lookup with
  | Except.error e => (Except.error e, 0)
  | Except.ok files =>
      let run := start (files.map FileInfo.name) script
      (run.outcome, run.calls)

/-!
Theorems.
-/

-- Cross-checks of the regex model against the behaviour of the compiled
-- Python pattern on concrete probes (validated against CPython's re module).
example : extract_section scenarioText ratingName = "** 8/10" := by decide
example : extract_section scenarioText conclusionName = "** Good" := by decide
example : extract_section ("hello" : String) conclusionName = "No conclusion available" := by decide
example : extract_section ("**Rating:" : String) ratingName = "" := by decide
example : extract_section ("## Rating:\n## Conclusion: ok" : String) ratingName = "## Conclusion: ok" := by decide
example : extract_section ("No suggestion available" : String) ratingName = "No rating available" := by decide
example : extract_section ("####Rating: x" : String) ratingName = "x" := by decide
example : extract_section ("- Rating:\n- Conclusion: Good" : String) ratingName = "- Conclusion: Good" := by decide
example : extract_section ("### Rating: 9\nsome\n- next" : String) ratingName = "9\nsome" := by decide
example : extract_section ("a ** Rating broken" : String) ratingName = "No rating available" := by decide
example : extract_section ("**Rating* 5" : String) ratingName = "5" := by decide
example : extract_section ("text - Rating: \n  7/10\n** C" : String) ratingName = "7/10" := by decide
example : extract_section ("xx\n**Rating:**\n**Conclusion:** C" : String) ratingName = "**" := by decide

-- Probe: a 429 response sleeps 4 inside _send_request, is wrapped to a 500
-- by the generic handler, and start re-raises it without retrying.
example :
    start [conclusionName] [Resp.rate, Resp.rate,
        Resp.ok (RespBody.json (JsonBody.obj OpenAIField.absent))] =
      ⟨Except.error ⟨500, analyzeErrMsg ++ strHTTPException ⟨429, rateMsg⟩⟩, [4], 1⟩ :=
  rfl

theorem leavesOfList_append (a b : List Entry) :
    leavesOfList (a ++ b) = leavesOfList a ++ leavesOfList b := by
  induction a with
  | nil => simp [leavesOfList]
  | cons e es ih => simp [leavesOfList, ih]

theorem process_files_eq_filterMap (q : List Entry) :
    process_files q = (fifoOrder q).filterMap recordOf := by
  induction q using process_files.induct with
  | case1 => simp [process_files, fifoOrder]
  | case2 n p ch rest ih =>
      simp [process_files, fifoOrder, recordOf, ih]
  | case3 n p b sz rest ih =>
      simp [process_files, fifoOrder, recordOf, ih]

theorem process_files_perm_leaves (q : List Entry) :
    (process_files q).Perm (leavesOfList q) := by
  induction q using process_files.induct with
  | case1 => simp [process_files, leavesOfList]
  | case2 n p ch rest ih =>
      rw [leavesOfList_append] at ih
      simpa [process_files, leavesOfList, leavesOf] using
        ih.trans List.perm_append_comm
  | case3 n p b sz rest ih =>
      simp only [process_files, leavesOfList, leavesOf, List.singleton_append]
      exact ih.cons _

/-- C1: for every repository tree (root listing `q`), `_process_files`
returns exactly the non-directory leaf records reachable from the root —
stated as a permutation with the structurally collected leaf set — and the
returned sequence is the FIFO discovery (pop) order with the directory
entries dropped: directories contribute `recordOf = none` to the
`filterMap`, so no directory entry ever appears in the output. -/
theorem process_files_exactly_fifo_leaves (q : List Entry) :
    process_files q = (fifoOrder q).filterMap recordOf ∧
    (process_files q).Perm (leavesOfList q) :=
  ⟨process_files_eq_filterMap q, process_files_perm_leaves q⟩

/-- C2: `_get_file_content` spills files whose byte size strictly exceeds
`MAX_CONTENT_SIZE` (1 MiB): the record content is the reference string
naming the on-disk location under the scratch root mirroring the
repository-relative path, and the raw bytes are written there; files at or
below the threshold embed their decoded bytes directly and write nothing. -/
theorem get_file_content_threshold (size : Nat) (path bytes : String) :
    (size > MAX_CONTENT_SIZE →
      get_file_content size path bytes =
        (savedMsg ++ joinTmpPath path, [⟨joinTmpPath path, bytes⟩])) ∧
    (size ≤ MAX_CONTENT_SIZE →
      get_file_content size path bytes = (bytes, [])) := by
  constructor
  · intro h
    simp [get_file_content, h]
  · intro h
    simp [get_file_content, Nat.not_lt_of_le h]

/-- Witness for C2 at concrete inputs: a 2000000-byte file is spilled with
its reference string, a 50-byte file is embedded. -/
theorem get_file_content_threshold_witness :
    (2000000 > MAX_CONTENT_SIZE ∧
      get_file_content 2000000 testPyName helloBytes =
        (savedMsg ++ joinTmpPath testPyName, [⟨joinTmpPath testPyName, helloBytes⟩])) ∧
    (50 ≤ MAX_CONTENT_SIZE ∧
      get_file_content 50 testPyName helloBytes = (helloBytes, [])) :=
  ⟨⟨by decide, (get_file_content_threshold 2000000 testPyName helloBytes).1 (by decide)⟩,
   ⟨by decide, (get_file_content_threshold 50 testPyName helloBytes).2 (by decide)⟩⟩

/-- C3 counterexample: on the response script 429, 429, 200 the run makes a
single remote call, performs only the fixed sleep of 4 time units from
`_send_request`'s 429 branch, and fails with a wrapped 500: the
`raise HTTPException(429, ...)` sits inside the `try` suite, so the generic
`except Exception` handler catches it and re-raises it as status 500, the
retry test in `start` never sees a 429, the sleep trace is not the claimed
backoff trace 1, 2, and the 200 payload's parse is never returned. -/
theorem two_sleep_claim_counterexample :
    start [testPyName] [Resp.rate, Resp.rate,
        Resp.ok (RespBody.json (JsonBody.obj (OpenAIField.objWithText scenarioText)))] =
      ⟨Except.error ⟨500, "Error analyzing code: 429: AI service rate limit exceeded."⟩,
        [4], 1⟩ ∧
    ([4] : List Nat) ≠ [1, 2] :=
  ⟨rfl, by decide⟩

/-- C3 amended: on responses 429, 429, 200 the review operation makes
exactly one remote call, performs a single sleep of
`backoffFactor ^ 2 = 4` time units (the fixed `time.sleep` in
`_send_request`'s 429 branch), and fails with `HTTPException` status 500
whose detail wraps the swallowed 429 via Starlette's
`HTTPException.__str__`: the generic `except Exception` handler converts
the 429 raise to a 500 before `start` can test it, so no backoff retry
happens and the 200 response is never requested. -/
theorem run_429_429_200_fails_500 (fns : List String) (b : JsonBody)
    (rest : List Resp) :
    start fns (Resp.rate :: Resp.rate :: Resp.ok (RespBody.json b) :: rest) =
      ⟨Except.error ⟨500, "Error analyzing code: 429: AI service rate limit exceeded."⟩,
        [4], 1⟩ :=
  rfl

/-- C4 counterexample: on the response script 429, 429, 429 the run fails
with status 500, not the claimed rate-limited status 429, and after exactly
one remote call, not three: `_send_request`'s generic handler wraps the 429
into a 500 before `start`'s retry test can see it. -/
theorem rate_limited_claim_counterexample :
    start [testPyName] [Resp.rate, Resp.rate, Resp.rate] =
      ⟨Except.error ⟨500, "Error analyzing code: 429: AI service rate limit exceeded."⟩,
        [4], 1⟩ ∧
    (500 : Nat) ≠ 429 ∧ (1 : Nat) ≠ 3 :=
  ⟨rfl, by decide, by decide⟩

/-- C4 amended: on responses 429, 429, 429 the review operation fails after
the first 429 with `HTTPException` status 500 wrapping the rate-limit
detail, after exactly one remote call and one fixed sleep of 4 time units;
the retry loop never fires (no status-429 exception escapes
`_send_request`), so the second and third responses are never requested. -/
theorem run_429_429_429_fails_500 (fns : List String) (rest : List Resp) :
    start fns (Resp.rate :: Resp.rate :: Resp.rate :: rest) =
      ⟨Except.error ⟨500, "Error analyzing code: 429: AI service rate limit exceeded."⟩,
        [4], 1⟩ :=
  rfl

/-- C8: a connectivity-level failure of the remote call fails the run
immediately with a server-error status (500, the generic handler, since the
httpx request error is not a `requests.RequestException`) carrying the
transport failure message, with no sleep and no further remote attempt:
exactly one call is made whatever the rest of the script holds. -/
theorem transport_failure_no_retry (fns : List String) (m : String)
    (rest : List Resp) :
    start fns (Resp.transportFail m :: rest) =
      ⟨Except.error ⟨500, analyzeErrMsg ++ m⟩, [], 1⟩ :=
  rfl

/-- C9: when the repository does not exist, `review_code` fails with the 404
`HTTPException` raised by `_get_repository` and the review client performs
zero remote calls, whatever the response script would have answered. -/
theorem notfound_before_review_call (m : String) (script : List Resp) :
    review_code (RepoLookup.notFound m) script =
      (Except.error ⟨404, notFoundMsg ++ m⟩, 0) :=
  rfl

theorem analyze_ne_invalid (x y : String) :
    analyzeErrMsg ++ x ≠ invalidFormatMsg ++ y := by
  intro h
  have h2 := congrArg String.data h
  rw [String.data_append, String.data_append] at h2
  have hE : analyzeErrMsg.data = 'E' :: ("rror analyzing code: " : String).data := by
    decide
  have hI : invalidFormatMsg.data =
      'I' :: ("nvalid response format from AI service: " : String).data := by
    decide
  rw [hE, hI, List.cons_append, List.cons_append] at h2
  injection h2 with hhead _
  exact absurd hhead (by decide)

/-- C10 counterexample: a 200 whose body is the valid JSON object mapping
the openai key to the string value hello lacks the generated_text field,
yet the operation fails rather than succeeding: the code calls
`.get('generated_text', ...)` on that string, the `AttributeError` reaches
the generic handler, and the run errors with status 500. -/
theorem nonobject_openai_counterexample :
    (start [testPyName] [Resp.ok (RespBody.json (JsonBody.obj
        (OpenAIField.nonObject strAttrErrMsg)))]).outcome =
      Except.error ⟨500, analyzeErrMsg ++ strAttrErrMsg⟩ :=
  rfl

/-- C10 amended: a 200 whose decoded body is a JSON object with the openai
key absent, or mapped to an object lacking generated_text, succeeds in one
call with the no-suggestion default commentary and the two not-available
sentinels.  The invalid-format 500 is raised for an undecodable 200 body,
while valid-JSON bodies that are not objects, or whose openai value is not
an object, fail instead with the generic 500 wrapping the raised
`AttributeError`.  The malformed-response (invalid-format) error arises
only from an undecodable body: every decodable body yields a success or a
generic-handler 500, and a generic-handler detail never coincides with an
invalid-format detail. -/
theorem missing_provider_data_defaults (fns : List String) (rest : List Resp)
    (m : String) :
    start fns (Resp.ok (RespBody.json (JsonBody.obj OpenAIField.absent)) :: rest) =
      ⟨Except.ok ⟨fns, noSuggestion, "No rating available", "No conclusion available"⟩, [], 1⟩ ∧
    start fns (Resp.ok (RespBody.json (JsonBody.obj OpenAIField.objNoText)) :: rest) =
      ⟨Except.ok ⟨fns, noSuggestion, "No rating available", "No conclusion available"⟩, [], 1⟩ ∧
    (send_request fns (Resp.ok (RespBody.invalid m))).1 =
      Except.error ⟨500, invalidFormatMsg ++ m⟩ ∧
    (send_request fns (Resp.ok (RespBody.json (JsonBody.nonObject m)))).1 =
      Except.error ⟨500, analyzeErrMsg ++ m⟩ ∧
    (send_request fns (Resp.ok (RespBody.json (JsonBody.obj (OpenAIField.nonObject m))))).1 =
      Except.error ⟨500, analyzeErrMsg ++ m⟩ ∧
    (∀ b : JsonBody,
      (∃ p : ParsedReview,
        (send_request fns (Resp.ok (RespBody.json b))).1 = Except.ok p) ∨
      (∃ m2 : String,
        (send_request fns (Resp.ok (RespBody.json b))).1 =
          Except.error ⟨500, analyzeErrMsg ++ m2⟩)) ∧
    (∀ x y : String, analyzeErrMsg ++ x ≠ invalidFormatMsg ++ y) :=
  ⟨rfl, rfl, rfl, rfl, rfl,
   fun b =>
     match b with
     | JsonBody.nonObject m2 => Or.inr ⟨m2, rfl⟩
     | JsonBody.obj OpenAIField.absent => Or.inl ⟨parse_result none fns, rfl⟩
     | JsonBody.obj (OpenAIField.nonObject m2) => Or.inr ⟨m2, rfl⟩
     | JsonBody.obj OpenAIField.objNoText => Or.inl ⟨parse_result (some none) fns, rfl⟩
     | JsonBody.obj (OpenAIField.objWithText t) =>
         Or.inl ⟨parse_result (some (some t)) fns, rfl⟩
     | JsonBody.obj (OpenAIField.objNonStringText m2) => Or.inr ⟨m2, rfl⟩,
   analyze_ne_invalid⟩

/-- C5 counterexample: on the scenario text the extractor returns
the string with the unconsumed bold-close characters, not the claimed
bare rating: the pattern consumes only one `:` or `*` after the section
name, so the remaining markers land in the captured group. -/
theorem scenario_rating_counterexample :
    extract_section scenarioText ratingName = "** 8/10" ∧
    ("** 8/10" : String) ≠ "8/10" :=
  ⟨by decide, by decide⟩

/-- C5 amended: on the scenario generated text the parse yields found files
test.py, rating with the residual bold markers, and conclusion with the
residual bold markers. -/
theorem scenario_parse_amended :
    parse_result (some (some scenarioText)) [testPyName] =
      ⟨[testPyName], scenarioText, "** 8/10", "** Good"⟩ := by
  decide

/-- C6 counterexample: a generated text whose rating heading ends the text
captures an empty group, so the rating field of the parse is the empty
string and the never-empty invariant fails. -/
theorem empty_rating_counterexample :
    (parse_result (some (some emptyHeadingText)) [testPyName]).rating = "" := by
  decide

theorem string_append_append_ne_empty (x : String) :
    sentinelHead ++ x ++ sentinelTail ≠ "" := by
  intro h
  have h2 := congrArg String.data h
  rw [String.data_append, String.data_append] at h2
  have h3 := (List.append_eq_nil.mp (List.append_eq_nil.mp h2).1).1
  exact absurd h3 (by decide)

theorem extract_section_ne_empty (text name : String)
    (h : Option.all (fun g => !(pyStrip g).isEmpty)
        (searchSection name.toList text.toList) = true) :
    extract_section text name ≠ "" := by
  unfold extract_section
  cases hs : searchSection name.toList text.toList with
  | none => exact string_append_append_ne_empty (pyLower name)
  | some g =>
      rw [hs] at h
      simp only [Option.all] at h
      intro hcontra
      have hg : pyStrip g = [] := by
        have h3 := congrArg String.data hcontra
        simpa using h3
      rw [hg] at h
      simp at h

/-- C6 amended: the rating and conclusion fields each hold either the
not-available sentinel (which is nonempty) or the trimmed captured section
text; they are nonempty whenever every matched section captures content that
is not whitespace-only.  (The original never-empty invariant fails: the
captured group can strip to the empty string, as when the heading ends the
text.) -/
theorem parse_fields_nonempty (o : Option (Option String)) (fns : List String)
    (hr : Option.all (fun g => !(pyStrip g).isEmpty)
        (searchSection ratingName.toList (generatedTextOf o).toList) = true)
    (hc : Option.all (fun g => !(pyStrip g).isEmpty)
        (searchSection conclusionName.toList (generatedTextOf o).toList) = true) :
    (parse_result o fns).rating ≠ "" ∧ (parse_result o fns).conclusion ≠ "" :=
  ⟨extract_section_ne_empty (generatedTextOf o) ratingName hr,
   extract_section_ne_empty (generatedTextOf o) conclusionName hc⟩

/-- Witness for the amended C6 at the scenario text, whose rating and
conclusion sections both capture non-whitespace content. -/
theorem parse_fields_nonempty_witness :
    (parse_result (some (some scenarioText)) [testPyName]).rating ≠ "" ∧
    (parse_result (some (some scenarioText)) [testPyName]).conclusion ≠ "" :=
  parse_fields_nonempty (some (some scenarioText)) [testPyName]
    (by decide) (by decide)

theorem searchSection_eq_none (name : List Char) (s : List Char)
    (h : ∀ t ∈ s.tails, matchSectionAt name t = none) :
    searchSection name s = none := by
  induction s with
  | nil => simp [searchSection, matchSectionAt, matchMarker]
  | cons c cs ih =>
      have h0 : matchSectionAt name (c :: cs) = none :=
        h _ ((List.mem_tails _ _).mpr (List.suffix_refl _))
      simp only [searchSection, h0]
      exact ih fun t ht =>
        h t ((List.mem_tails _ _).mpr
          (((List.mem_tails _ _).mp ht).trans (List.suffix_cons c cs)))

/-- C7 counterexample: on a text with no conclusion heading the extractor
returns the capitalised sentinel, not the claimed all-lower-case one. -/
theorem sentinel_capitalisation_counterexample :
    extract_section ("hello" : String) conclusionName = "No conclusion available" ∧
    ("No conclusion available" : String) ≠ "no conclusion available" :=
  ⟨by decide, by decide⟩

/-- C7 amended: whenever the section pattern for the conclusion matches at
no position of the text, `extract_section` returns the fixed sentinel,
which is capitalised: No conclusion available. -/
theorem no_conclusion_heading_gives_sentinel (text : String)
    (h : ∀ t ∈ text.toList.tails, matchSectionAt conclusionName.toList t = none) :
    extract_section text conclusionName = "No conclusion available" := by
  unfold extract_section
  rw [searchSection_eq_none _ _ h]
  decide

/-- Witness for the amended C7 at a concrete heading-free text. -/
theorem no_conclusion_heading_gives_sentinel_witness :
    extract_section ("hello" : String) conclusionName = "No conclusion available" :=
  no_conclusion_heading_gives_sentinel ("hello" : String) (by decide)

end CodeReviewAI
